import Mathlib

/-!
# Calculator web client (`app/static/app.js`)

A shallow embedding of the browser-side script: the module state (`token`,
`currentUser`), the `localStorage` entry `token`, the page carrying the class
`active`, the toast, and the requests handed to `fetch`.  Every async function of
the script is a state-passing function; a function that can reject returns an
`Except`.  The server and the script engine are a parameter (`World`).

String conversion is partial: an object with an own `toString` entry (which,
coming from JSON, is never callable) cannot be converted, and the engine raises a
TypeError wherever the script converts it (template literal, `new Error`,
`localStorage.setItem`, assignment to `input.value` or `textContent`).

What is left out of the state: the DOM nodes that only receive rendered text
(result box, history table, statistics panel, profile inputs) and the three-second
timer that hides the toast.  No property below depends on them; whether rendering
raises an exception *is* modelled, because it decides which toast is shown.
-/

namespace CalcApp

/-! ## Script values -/

mutual
/-- Values the script handles: `undefined` and whatever `response.json()` can
produce.  A number is represented by its canonical string conversion (`-0` and `0`
both give `"0"`); string conversion and truthiness are the only observations the
script makes on numbers. -/
inductive JSVal where
  | undefined
  | null
  | bool (b : Bool)
  | num (text : String)
  | str (s : String)
  | arr (items : JSList)
  | obj (fields : JSFields)
  deriving DecidableEq
/-- Elements of an array value, in order. -/
inductive JSList where
  | nil
  | cons (head : JSVal) (tail : JSList)
  deriving DecidableEq
/-- Own properties of an object value, in insertion order. -/
inductive JSFields where
  | nil
  | cons (key : String) (value : JSVal) (rest : JSFields)
  deriving DecidableEq
end

/-- ToBoolean: what `if (v)` and `v || w` test. -/
def truthy : JSVal → Bool
  | .undefined => false
  | .null => false
  | .bool b => b
  | .num text => text != "0" && text != "NaN"
  | .str s => s != ""
  | .arr _ => true
  | .obj _ => true

/-- Own property `key` of an object; of two entries with one key the later wins,
as in `JSON.parse`. -/
def JSFields.get (key : String) : JSFields → Option JSVal
  | .nil => none
  | .cons k v rest =>
    match JSFields.get key rest with
    | some w => some w
    | none => if k = key then some v else none

/-- Values of the own properties, one per key (the later entry of a repeated
key). -/
def JSFields.values : JSFields → List JSVal
  | .nil => []
  | .cons k v rest =>
    if (JSFields.get k rest).isSome then JSFields.values rest
    else v :: JSFields.values rest

/-- Elements of an array as a list. -/
def JSList.toList : JSList → List JSVal
  | .nil => []
  | .cons v rest => v :: JSList.toList rest

mutual
/-- ToString: what a template literal, `new Error(v)`, `localStorage.setItem(k, v)`
and a property key apply to a value.  `none` stands for the TypeError the engine
raises: an object is converted by its `toString`, then its `valueOf`; for an
object with an own `toString` entry the first is not callable and the second,
inherited, returns the object itself, so there is no primitive to convert. -/
def toStr : JSVal → Option String
  | .undefined => some "undefined"
  | .null => some "null"
  | .bool b => some (if b then "true" else "false")
  | .num text => some text
  | .str s => some s
  | .arr items => joinStr items
  | .obj fields => if (JSFields.get "toString" fields).isSome then none else some "[object Object]"
termination_by structural v => v
/-- Array conversion `items.join(",")`: `null` and `undefined` elements
contribute the empty string, any other element its own conversion. -/
def joinStr : JSList → Option String
  | .nil => some ""
  | .cons v rest =>
    match (match v with
      | .undefined => some ""
      | .null => some ""
      | w => toStr w) with
    | none => none
    | some first =>
      match rest with
      | .nil => some first
      | _ =>
        match joinStr rest with
        | none => none
        | some others => some (first ++ "," ++ others)
termination_by structural items => items
end

/-- Property read `v.key`, for a `key` that no built-in prototype defines
(`detail`, `access_token`, `username`, `result`, ...).  `none` stands for the
TypeError the engine raises when `v` is `null` or `undefined`; a read that finds
nothing yields `undefined`. -/
def getProp (v : JSVal) (key : String) : Option JSVal :=
  match v with
  | .undefined => none
  | .null => none
  | .obj fields => some ((fields.get key).getD .undefined)
  | _ => some .undefined

/-- Property read on a value known not to be `null` or `undefined`. -/
def propOr (v : JSVal) (key : String) : JSVal :=
  (getProp v key).getD .undefined

/-- Conversion applied by the assignment `input.value = v`: `null` becomes the
empty string, everything else goes through ToString. -/
def inputValue : JSVal → Option String
  | .null => some ""
  | v => toStr v

/-- First of the labelled values, in order, whose string conversion raises. -/
def firstUnconvertible : List (String × JSVal) → Option String
  | [] => none
  | (site, v) :: rest =>
    match toStr v with
    | none => some site
    | some _ => firstUnconvertible rest

/-! ## Errors, requests, replies -/

/-- An error object as far as the script looks at it. -/
structure JSError where
  name : String
  message : String
  deriving DecidableEq

/-- A plain object used as header map: property names are case-sensitive, the
order is insertion order. -/
abbrev Headers := List (String × String)

/-- Assignment `headers[key] = value`. -/
def setHeader (key value : String) : Headers → Headers
  | [] => [(key, value)]
  | (k, v) :: rest =>
    if k = key then (key, value) :: rest else (k, v) :: setHeader key value rest

/-- Read `headers[key]`. -/
def header (key : String) : Headers → Option String
  | [] => none
  | (k, v) :: rest => if k = key then some v else header key rest

/-- Object spread `{ ...base, ...extra }`. -/
def spread (base extra : Headers) : Headers :=
  extra.foldl (fun acc kv => setHeader kv.1 kv.2 acc) base

/-- The object a caller hands to `JSON.stringify` for the request body, kept
symbolic. -/
inductive Payload where
  | credentials (username password : String)
  | registration (username email password : String)
  | calculation (operand1 operation operand2 : String)
  | profile (username email : String)
  | passwordChange (currentPassword newPassword : String)
  deriving DecidableEq

/-- The `options` argument of `apiRequest`; an absent field is `undefined`. -/
structure Options where
  method : Option String := none
  body : Option Payload := none
  headers : Option Headers := none
  deriving DecidableEq

/-- What `fetch` receives. -/
structure Request where
  url : String
  method : Option String
  body : Option Payload
  headers : Headers
  deriving DecidableEq

/-- Outcome of `response.json()`. -/
inductive Body where
  | json (value : JSVal)
  | invalid (error : JSError)
  deriving DecidableEq

/-- Outcome of `fetch`: it rejects (no response at all) or it resolves to a
response with its `ok` flag and its body. -/
inductive Reply where
  | rejected (error : JSError)
  | response (ok : Bool) (body : Body)
  deriving DecidableEq

/-- Everything outside the script: the server (the reply to the newest request,
head of the list, may depend on all requests sent so far) and the wording the
engine gives the TypeError it raises at an expression of the script. -/
structure World where
  respond : List Request → Reply
  typeErrorText : String → String

/-! ## Client state -/

/-- One `showMessage` call. -/
structure Notice where
  message : String
  type : String
  deriving DecidableEq

/-- A request handed to `fetch`, with the value `token` had at that moment (a
ghost field: nothing in the script reads it). -/
structure Sent where
  request : Request
  token : JSVal
  deriving DecidableEq

/-- State of the page. `notices` and `sent` grow at the head; the head of
`notices` is what the toast displays. -/
structure Client where
  token : JSVal
  currentUser : JSVal
  storage : Option String
  activePages : List String
  notices : List Notice
  sent : List Sent
  deriving DecidableEq

/-- Constant `API_BASE`. -/
def API_BASE : String := ""

/-- Call `localStorage.getItem` on the entry. -/
def getItem : Option String → JSVal
  | none => .null
  | some t => .str t

/-- Module state right after the script is loaded; `pages` are the pages the
markup shows initially. -/
def boot (stored : Option String) (pages : List String) : Client :=
  { token := getItem stored, currentUser := .null, storage := stored,
    activePages := pages, notices := [], sent := [] }

/-- Function `showMessage`: text and class of the toast are replaced. -/
def showMessage (message : String) (type : String) (s : Client) : Client :=
  { s with notices := ⟨message, type⟩ :: s.notices }

/-- Function `showPage`: every page loses `active`, then `pageId` gets it. -/
def showPage (pageId : String) (s : Client) : Client :=
  { s with activePages := [pageId] }

/-- Lines 26-33 of `apiRequest`: the headers object.  `none` when the template
literal of line 32 raises, which happens for a truthy token that cannot be
converted. -/
def requestHeaders (token : JSVal) (options : Options) : Option Headers :=
  let headers := spread [("Content-Type", "application/json")] (options.headers.getD [])
  if truthy token then
    match toStr token with
    | some text => some (setHeader "Authorization" ("Bearer " ++ text) headers)
    | none => none
  else some headers

/-- Argument list of the `fetch` call in `apiRequest`, when line 32 lets the call
get that far. -/
def buildRequest (token : JSVal) (endpoint : String) (options : Options) :
    Option Request :=
  match requestHeaders token options with
  | some headers =>
    some { url := API_BASE ++ endpoint, method := options.method, body := options.body,
           headers := headers }
  | none => none

/-- First half of `apiRequest` (lines 26-38), which runs synchronously inside
the caller: the request is built from the current `token` and handed to `fetch`.
When line 32 raises, nothing is sent and the call rejects. -/
def dispatch (w : World) (endpoint : String) (options : Options) (s : Client) :
    Except JSError Reply × Client :=
  match buildRequest s.token endpoint options with
  | some request =>
    (.ok (w.respond (request :: s.sent.map Sent.request)),
      { s with sent := ⟨request, s.token⟩ :: s.sent })
  | none => (.error ⟨"TypeError", w.typeErrorText "Bearer token"⟩, s)

/-- Second half of `apiRequest` (lines 40-45), run when the reply is in. -/
def settle (w : World) : Reply → Except JSError JSVal
  | .rejected e => .error e
  | .response ok body =>
    if !ok then
      match body with
      | .invalid e => .error e
      | .json error =>
        match getProp error "detail" with
        | none => .error ⟨"TypeError", w.typeErrorText "error.detail"⟩
        | some detail =>
          if truthy detail then
            match toStr detail with
            | some message => .error ⟨"Error", message⟩
            | none => .error ⟨"TypeError", w.typeErrorText "new Error(error.detail)"⟩
          else .error ⟨"Error", "An error occurred"⟩
    else
      match body with
      | .invalid e => .error e
      | .json value => .ok value

/-- Outcome of an `apiRequest` call whose first half gave `r`. -/
def settled (w : World) : Except JSError Reply → Except JSError JSVal
  | .ok reply => settle w reply
  | .error e => .error e

/-- Function `apiRequest`. -/
def apiRequest (w : World) (endpoint : String) (options : Options) (s : Client) :
    Except JSError JSVal × Client :=
  let (r, s1) := dispatch w endpoint options s
  (settled w r, s1)

/-- Function `logout`. -/
def logout (s : Client) : Client :=
  let s := { s with token := .null }
  let s := { s with currentUser := .null }
  let s := { s with storage := none }
  let s := showPage "login-page" s
  showMessage "Logged out successfully" "info" s

/-- Lines 83-84 of `loadUserProfile`: the two assignments to the profile inputs.
The message of the TypeError they raise, if any: reading a property of `null`,
or a value that cannot be converted to the string the input takes. -/
def profileFieldsError (w : World) (user : JSVal) : Option String :=
  match getProp user "username" with
  | none => some (w.typeErrorText "currentUser.username")
  | some username =>
    match inputValue username with
    | none => some (w.typeErrorText "profile-username.value")
    | some _ =>
      match inputValue (propOr user "email") with
      | none => some (w.typeErrorText "profile-email.value")
      | some _ => none

/-- Function `loadUserProfile`.  `currentUser` is assigned before the inputs are
filled; an exception raised there is taken by the `catch` block like a failed
request. -/
def loadUserProfile (w : World) (s : Client) : Client :=
  match apiRequest w "/api/users/me" {} s with
  | (.ok user, s) =>
    let s := { s with currentUser := user }
    match profileFieldsError w user with
    | none => s
    | some message => logout (showMessage message "error" s)
  | (.error e, s) => logout (showMessage e.message "error" s)

/-- Function `login`; it has no `catch`, so a failure rejects the call.  Line 56
raises when the token cannot be converted to the string the storage takes: the
token is assigned by then, nothing is stored and the profile is not fetched. -/
def login (w : World) (username password : String) (s : Client) :
    Except JSError Unit × Client :=
  match apiRequest w "/api/auth/login"
      { method := some "POST", body := some (.credentials username password) } s with
  | (.error e, s) => (.error e, s)
  | (.ok data, s) =>
    match getProp data "access_token" with
    | none => (.error ⟨"TypeError", w.typeErrorText "data.access_token"⟩, s)
    | some accessToken =>
      let s := { s with token := accessToken }
      match toStr accessToken with
      | none => (.error ⟨"TypeError", w.typeErrorText "localStorage.setItem"⟩, s)
      | some text =>
        let s := { s with storage := some text }
        let s := loadUserProfile w s
        let s := showPage "calculator-page" s
        let s := showMessage "Login successful!" "success" s
        (.ok (), s)

/-- Function `register`; it has no `catch` either. -/
def register (w : World) (username email password : String) (s : Client) :
    Except JSError Unit × Client :=
  match apiRequest w "/api/auth/register"
      { method := some "POST", body := some (.registration username email password) } s with
  | (.error e, s) => (.error e, s)
  | (.ok _, s) =>
    let s := showMessage "Registration successful! Please login." "success" s
    let s := showPage "login-page" s
    (.ok (), s)

/-- Function `performCalculation`. The value it returns is dropped by its only
caller and is not modelled.  The template of line 105 reads `result.result` and
converts it. -/
def performCalculation (w : World) (operand1 operation operand2 : String) (s : Client) :
    Client :=
  match apiRequest w "/api/calculations/"
      { method := some "POST", body := some (.calculation operand1 operation operand2) } s with
  | (.ok result, s) =>
    match getProp result "result" with
    | none => showMessage (w.typeErrorText "result.result") "error" s
    | some value =>
      match toStr value with
      | none => showMessage (w.typeErrorText "String(result.result)") "error" s
      | some _ => showMessage "Calculation performed successfully!" "success" s
  | (.error e, s) => showMessage e.message "error" s

/-! ## Operation labels -/

/-- Names every object literal inherits from `Object.prototype`; each of them
holds a function or an object, hence a truthy value that is not a string. -/
def objectPrototypeKeys : List String :=
  ["constructor", "hasOwnProperty", "isPrototypeOf", "propertyIsEnumerable",
    "toLocaleString", "toString", "valueOf", "__proto__", "__defineGetter__",
    "__defineSetter__", "__lookupGetter__", "__lookupSetter__"]

/-- What a lookup in one of the two tables can hand back: text, or the
built-in member of `Object.prototype` stored under `key`. -/
inductive Label where
  | text (s : String)
  | inherited (key : String)
  deriving DecidableEq

/-- Own entries of an object literal whose values are strings. -/
def ownEntry (key : String) : List (String × String) → Option String
  | [] => none
  | (k, v) :: rest => if k = key then some v else ownEntry key rest

/-- Expression `table[operation] || operation`: the read finds an own entry, or
else an inherited member, or else `undefined`. -/
def labelOr (table : List (String × String)) (operation : String) : Label :=
  match ownEntry operation table with
  | some v => if v != "" then .text v else .text operation
  | none =>
    if operation ∈ objectPrototypeKeys then .inherited operation else .text operation

/-- Table `symbols` of `getOperationSymbol`. -/
def symbols : List (String × String) :=
  [("add", "+"), ("subtract", "-"), ("multiply", "×"), ("divide", "÷"),
    ("power", "^"), ("modulo", "%")]

/-- Table `names` of `getOperationName`. -/
def names : List (String × String) :=
  [("add", "Addition"), ("subtract", "Subtraction"), ("multiply", "Multiplication"),
    ("divide", "Division"), ("power", "Power"), ("modulo", "Modulo")]

/-- Function `getOperationSymbol`, on a string argument. -/
def getOperationSymbol (operation : String) : Label :=
  labelOr symbols operation

/-- Function `getOperationName`, on a string argument. -/
def getOperationName (operation : String) : Label :=
  labelOr names operation

/-- The six operations of the calculator. -/
def operations : List String :=
  ["add", "subtract", "multiply", "divide", "power", "modulo"]

/-! ## History, statistics, profile -/

/-- Test `calculations.length === 0`; `none` when the read raises. -/
def lengthIsZero : JSVal → Option Bool
  | .undefined => none
  | .null => none
  | .arr .nil => some true
  | .arr _ => some false
  | .str t => some (t == "")
  | .obj fields =>
    some (match fields.get "length" with
      | some (.num "0") => true
      | _ => false)
  | _ => some false

/-- One call of the `forEach` callback of `loadHistory`: the expression at which
it raises, if any.  Reading `calc.created_at` raises on `null`; `new Date(...)`,
the key lookup of `getOperationName` and the template convert, in this order, the
date, the operation, both operands, the result and the id. -/
def rowError (row : JSVal) : Option String :=
  match getProp row "created_at" with
  | none => some "calc.created_at"
  | some createdAt =>
    firstUnconvertible
      [("new Date(calc.created_at)", createdAt), ("names[operation]", propOr row "operation"),
        ("String(calc.operand1)", propOr row "operand1"),
        ("String(calc.operand2)", propOr row "operand2"),
        ("String(calc.result)", propOr row "result"), ("String(calc.id)", propOr row "id")]

/-- The `forEach` of `loadHistory` over the rows stops at the first row that
raises. -/
def rowsError : JSList → Option String
  | .nil => none
  | .cons row rest =>
    match rowError row with
    | some site => some site
    | none => rowsError rest

/-- Lines 143-164 of `loadHistory` as far as exceptions go: the message of the
TypeError raised while the table is rendered, if any.  Only an array has a
callable `forEach`. -/
def historyError (w : World) (calculations : JSVal) : Option String :=
  match lengthIsZero calculations with
  | none => some (w.typeErrorText "calculations.length")
  | some true => none
  | some false =>
    match calculations with
    | .arr items => (rowsError items).map w.typeErrorText
    | _ => some (w.typeErrorText "calculations.forEach")

/-- Values `Object.entries` yields that can fail to convert: the own values of an
object, the elements of an array (a string yields characters, other primitives
nothing). -/
def entryValues : JSVal → List JSVal
  | .obj fields => fields.values
  | .arr items => items.toList
  | _ => []

/-- Lines 174-193 of `loadStatistics` as far as exceptions go: `textContent`
converts the total, `toFixed` exists on numbers only, `getOperationName` converts
a truthy most-used operation to a key, `Object.keys` rejects `null` and
`undefined`, the template converts every count. -/
def statisticsError (w : World) (stats : JSVal) : Option String :=
  match getProp stats "total_calculations" with
  | none => some (w.typeErrorText "stats.total_calculations")
  | some total =>
    match toStr total with
    | none => some (w.typeErrorText "stat-total.textContent")
    | some _ =>
      match propOr stats "average_result" with
      | .num _ =>
        if truthy (propOr stats "most_used_operation") &&
            (toStr (propOr stats "most_used_operation")).isNone then
          some (w.typeErrorText "names[operation]")
        else
          match propOr stats "calculations_by_operation" with
          | .undefined => some (w.typeErrorText "Object.keys")
          | .null => some (w.typeErrorText "Object.keys")
          | byOperation =>
            (firstUnconvertible ((entryValues byOperation).map (fun v => ("String(count)", v)))).map
              w.typeErrorText
      | _ => some (w.typeErrorText "stats.average_result.toFixed")

/-- Part of `loadHistory` that runs once its `apiRequest` call has settled. -/
def loadHistoryDone (w : World) (r : Except JSError Reply) (s : Client) : Client :=
  match settled w r with
  | .ok calculations =>
    match historyError w calculations with
    | none => s
    | some message => showMessage message "error" s
  | .error e => showMessage e.message "error" s

/-- Function `loadHistory`. -/
def loadHistory (w : World) (s : Client) : Client :=
  let (r, s1) := dispatch w "/api/calculations/" {} s
  loadHistoryDone w r s1

/-- Part of `loadStatistics` that runs once its `apiRequest` call has settled. -/
def loadStatisticsDone (w : World) (r : Except JSError Reply) (s : Client) : Client :=
  match settled w r with
  | .ok stats =>
    match statisticsError w stats with
    | none => s
    | some message => showMessage message "error" s
  | .error e => showMessage e.message "error" s

/-- Function `loadStatistics`. -/
def loadStatistics (w : World) (s : Client) : Client :=
  let (r, s1) := dispatch w "/api/users/me/statistics" {} s
  loadStatisticsDone w r s1

/-- Function `deleteCalculation`; `confirmed` is the answer to `confirm(...)`,
`id` the text the template puts after the last slash. -/
def deleteCalculation (w : World) (id : String) (confirmed : Bool) (s : Client) : Client :=
  if !confirmed then s
  else
    match apiRequest w ("/api/calculations/" ++ id) { method := some "DELETE" } s with
    | (.ok _, s) =>
      let s := showMessage "Calculation deleted successfully" "success" s
      let s := loadHistory w s
      loadStatistics w s
    | (.error e, s) => showMessage e.message "error" s

/-- Function `updateProfile`. -/
def updateProfile (w : World) (username email : String) (s : Client) : Client :=
  match apiRequest w "/api/users/me"
      { method := some "PUT", body := some (.profile username email) } s with
  | (.ok _, s) =>
    let s := showMessage "Profile updated successfully!" "success" s
    loadUserProfile w s
  | (.error e, s) => showMessage e.message "error" s

/-- Function `changePassword`. -/
def changePassword (w : World) (currentPassword newPassword : String) (s : Client) :
    Client :=
  match apiRequest w "/api/users/me/change-password"
      { method := some "POST",
        body := some (.passwordChange currentPassword newPassword) } s with
  | (.ok _, s) => showMessage "Password changed successfully!" "success" s
  | (.error e, s) => showMessage e.message "error" s

/-! ## Startup and user actions -/

/-- First statement of the `DOMContentLoaded` handler together with its `then`
callback. -/
def onContentLoaded (w : World) (s : Client) : Client :=
  if truthy s.token then showPage "calculator-page" (loadUserProfile w s)
  else showPage "login-page" s

/-- Page load: the script is evaluated, then `DOMContentLoaded` fires. -/
def startup (w : World) (stored : Option String) (pages : List String) : Client :=
  onContentLoaded w (boot stored pages)

/-- Targets of the nine navigation links. -/
inductive NavTarget where
  | calculator
  | history
  | profile
  deriving DecidableEq

/-- Values of the table `navLinks`. -/
def NavTarget.pageId : NavTarget → String
  | .calculator => "calculator-page"
  | .history => "history-page"
  | .profile => "profile-page"

/-- Click on a navigation link. For the history page the handler starts
`loadHistory()` and `loadStatistics()` without awaiting either: both requests
leave before any reply is in, and `statsFirst` says which reply arrives first.
A call that raised before `fetch` settles ahead of any reply. -/
def navigate (w : World) (target : NavTarget) (statsFirst : Bool) (s : Client) : Client :=
  let s := showPage target.pageId s
  if target.pageId = "history-page" then
    let (history, s1) := dispatch w "/api/calculations/" {} s
    let (stats, s2) := dispatch w "/api/users/me/statistics" {} s1
    match history, stats with
    | .error _, _ => loadStatisticsDone w stats (loadHistoryDone w history s2)
    | .ok _, .error _ => loadHistoryDone w history (loadStatisticsDone w stats s2)
    | .ok _, .ok _ =>
      if statsFirst then loadHistoryDone w history (loadStatisticsDone w stats s2)
      else loadStatisticsDone w stats (loadHistoryDone w history s2)
  else s

/-- What the user can do: the listeners registered by the `DOMContentLoaded`
handler and the delete button of a history row.  The arguments are the values
read from the form fields. -/
inductive Action where
  | submitLogin (username password : String)
  | submitRegister (username email password : String)
  | showRegister
  | showLogin
  | submitCalculator (operand1 operation operand2 : String)
  | submitProfile (username email : String)
  | submitPassword (currentPassword newPassword : String)
  | nav (target : NavTarget) (statsFirst : Bool)
  | clickLogout
  | clickDelete (id : String) (confirmed : Bool)

/-- Effect of one user action, run to completion. A rejection of `login` or
`register` is dropped: their handlers await them without a `catch`.  The script
itself never checks which page is active. -/
def step (w : World) (a : Action) (s : Client) : Client :=
  match a with
  | .submitLogin username password => (login w username password s).2
  | .submitRegister username email password => (register w username email password s).2
  | .showRegister => showPage "register-page" s
  | .showLogin => showPage "login-page" s
  | .submitCalculator operand1 operation operand2 =>
    performCalculation w operand1 operation operand2 s
  | .submitProfile username email => updateProfile w username email s
  | .submitPassword currentPassword newPassword =>
    changePassword w currentPassword newPassword s
  | .nav target statsFirst => navigate w target statsFirst s
  | .clickLogout => logout s
  | .clickDelete id confirmed => deleteCalculation w id confirmed s

/-- A sequence of user actions, each completed before the next starts. -/
def run (w : World) : List Action → Client → Client
  | [], s => s
  | a :: rest, s => run w rest (step w a s)

/-! ## Properties of states and servers -/

/-- The `Authorization` entry of a logged request is the one dictated by the token
held when it was sent: `Bearer ` and the token when one was held, none otherwise. -/
def carriesToken (e : Sent) : Prop :=
  (truthy e.token = true →
      ∃ text, toStr e.token = some text ∧
        header "Authorization" e.request.headers = some ("Bearer " ++ text)) ∧
    (truthy e.token = false → header "Authorization" e.request.headers = none)

/-- Log entries one `apiRequest` call adds: the request, or nothing when line 32
raises. -/
def logged (token : JSVal) (endpoint : String) (options : Options) : List Sent :=
  match buildRequest token endpoint options with
  | some request => [⟨request, token⟩]
  | none => []

/-- No token is held, or the held token converts to a string: line 32 does not
raise. -/
def sendable (token : JSVal) : Bool :=
  !truthy token || (toStr token).isSome

/-- Every request logged in `t` is logged in `s` already or carries its token. -/
def Grows (s t : Client) : Prop :=
  ∀ e ∈ t.sent, e ∈ s.sent ∨ carriesToken e

/-- The token in memory is what `localStorage.getItem('token')` returns. -/
def Synced (s : Client) : Prop :=
  s.token = getItem s.storage

/-- Token and storage entry are those of `s`, or both have been cleared. -/
def KeptOrCleared (s t : Client) : Prop :=
  (t.token = s.token ∧ t.storage = s.storage) ∨ (t.token = .null ∧ t.storage = none)

/-- A server whose every successful reply to the login endpoint, unless its body
is `null`, has a string under `access_token`. -/
def StringTokens (w : World) : Prop :=
  ∀ (r : Request) (earlier : List Request) (data v : JSVal),
    r.url = "/api/auth/login" →
    w.respond (r :: earlier) = .response true (.json data) →
    getProp data "access_token" = some v → ∃ t, v = .str t

/-! ## Example worlds -/

/-- Engine wording used in the examples. -/
def exampleText (site : String) : String :=
  "cannot read " ++ site

/-- A server scripted by endpoint: one reply for the login endpoint, one for the
profile fetch (a request to `/api/users/me` without a method), one for everything
else. -/
def scripted (loginReply profileReply otherReply : Reply) : World :=
  { respond := fun log =>
      match log with
      | [] => otherReply
      | r :: _ =>
        if r.url = "/api/auth/login" then loginReply
        else if r.url = "/api/users/me" ∧ r.method = none then profileReply
        else otherReply
    typeErrorText := exampleText }

/-- Error body `{"detail": text}`. -/
def detailBody (text : String) : JSVal :=
  .obj (.cons "detail" (.str text) .nil)

/-- Reply `401 {"detail": text}`. -/
def denied (text : String) : Reply :=
  .response false (.json (detailBody text))

/-- Login body `{"access_token": t, "token_type": "bearer"}`. -/
def tokenBody (t : String) : JSVal :=
  .obj (.cons "access_token" (.str t) (.cons "token_type" (.str "bearer") .nil))

/-- Profile body `{"username": "alice", "email": "alice@example.org"}`. -/
def aliceBody : JSVal :=
  .obj (.cons "username" (.str "alice") (.cons "email" (.str "alice@example.org") .nil))

/-- Validation error body `{"detail": [{"msg": "field required"}]}`. -/
def validationBody : JSVal :=
  .obj (.cons "detail"
    (.arr (.cons (.obj (.cons "msg" (.str "field required") .nil)) .nil)) .nil)

/-- Reply with a success status and an empty body, as for `204 No Content`. -/
def emptySuccess : Reply :=
  .response true (.invalid ⟨"SyntaxError", "Unexpected end of JSON input"⟩)

/-- An object that cannot be converted to a string: `{"toString": 1}`. -/
def unconvertible : JSVal :=
  .obj (.cons "toString" (.num "1") .nil)

/-! ## Header maps -/

theorem header_setHeader_same (key value : String) (h : Headers) :
    header key (setHeader key value h) = some value := by
  induction h with
  | nil => simp [setHeader, header]
  | cons kv rest ih =>
    obtain ⟨k, v⟩ := kv
    by_cases hk : k = key
    · simp [setHeader, header, hk]
    · simp [setHeader, header, hk, ih]

theorem header_setHeader_other (key value other : String) (h : Headers)
    (hne : other ≠ key) :
    header other (setHeader key value h) = header other h := by
  induction h with
  | nil =>
    have : ¬ key = other := fun e => hne e.symm
    simp [setHeader, header, this]
  | cons kv rest ih =>
    obtain ⟨k, v⟩ := kv
    by_cases hk : k = key
    · have h1 : ¬ key = other := fun e => hne e.symm
      have h2 : ¬ k = other := fun e => hne (e.symm.trans hk)
      simp [setHeader, header, hk, h1, h2]
    · by_cases ho : k = other
      · subst ho
        simp [setHeader, header, hne]
      · simp [setHeader, header, hk, ho, ih]

theorem header_spread (key : String) (base extra : Headers) :
    header key (spread base extra) =
      (header key extra.reverse).orElse (fun _ => header key base) := by
  induction extra using List.reverseRecOn with
  | nil => simp [spread, header]
  | append_singleton rest kv ih =>
    obtain ⟨k, v⟩ := kv
    have hs : spread base (rest ++ [(k, v)]) = setHeader k v (spread base rest) := by
      simp [spread, List.foldl_append]
    rw [hs, List.reverse_append]
    by_cases hk : k = key
    · subst hk
      simp [header_setHeader_same, header]
    · have hne : key ≠ k := fun e => hk e.symm
      rw [header_setHeader_other k v key _ hne, ih]
      simp [header, hk]

/-! ## The request wrapper -/

theorem requestHeaders_isSome (token : JSVal) (options : Options) :
    (requestHeaders token options).isSome = sendable token := by
  unfold requestHeaders sendable
  cases ht : truthy token
  · simp
  · cases hs : toStr token <;> simp

theorem buildRequest_isSome (token : JSVal) (endpoint : String) (options : Options) :
    (buildRequest token endpoint options).isSome = sendable token := by
  rw [← requestHeaders_isSome token options]
  unfold buildRequest
  cases requestHeaders token options <;> rfl

theorem buildRequest_headers (token : JSVal) (endpoint : String) (options : Options)
    (request : Request) (h : buildRequest token endpoint options = some request) :
    requestHeaders token options = some request.headers ∧
      request.url = API_BASE ++ endpoint ∧ request.method = options.method ∧
      request.body = options.body := by
  unfold buildRequest at h
  cases hh : requestHeaders token options with
  | none => simp [hh] at h
  | some headers =>
    simp only [hh, Option.some.injEq] at h
    subst h
    exact ⟨rfl, rfl, rfl, rfl⟩

theorem logged_length (token : JSVal) (endpoint : String) (options : Options) :
    (logged token endpoint options).length = if sendable token then 1 else 0 := by
  rw [← buildRequest_isSome token endpoint options]
  unfold logged
  cases buildRequest token endpoint options <;> rfl

theorem apiRequest_snd (w : World) (endpoint : String) (options : Options) (s : Client) :
    (apiRequest w endpoint options s).2 =
      { s with sent := logged s.token endpoint options ++ s.sent } := by
  unfold apiRequest dispatch logged
  cases buildRequest s.token endpoint options <;> rfl

theorem apiRequest_pair (w : World) (endpoint : String) (options : Options) (s : Client) :
    apiRequest w endpoint options s =
      ((apiRequest w endpoint options s).1,
        { s with sent := logged s.token endpoint options ++ s.sent }) := by
  rw [← apiRequest_snd]

theorem apiRequest_of_request (w : World) (endpoint : String) (options : Options)
    (s : Client) (request : Request)
    (h : buildRequest s.token endpoint options = some request) :
    apiRequest w endpoint options s =
      (settle w (w.respond (request :: s.sent.map Sent.request)),
        { s with sent := ⟨request, s.token⟩ :: s.sent }) := by
  unfold apiRequest dispatch
  rw [h]
  rfl

theorem apiRequest_of_raise (w : World) (endpoint : String) (options : Options)
    (s : Client) (h : buildRequest s.token endpoint options = none) :
    apiRequest w endpoint options s =
      (.error ⟨"TypeError", w.typeErrorText "Bearer token"⟩, s) := by
  unfold apiRequest dispatch
  rw [h]
  rfl

theorem settle_ok_iff (w : World) (reply : Reply) (value : JSVal) :
    settle w reply = .ok value ↔ reply = .response true (.json value) := by
  constructor
  · intro h
    cases reply with
    | rejected e => simp [settle] at h
    | response ok body =>
      cases ok <;> cases body <;> simp [settle] at h
      · split at h
        · simp at h
        · split at h
          · split at h <;> simp at h
          · simp at h
      · simp [h]
  · intro h
    subst h
    simp [settle]

theorem apiRequest_ok (w : World) (endpoint : String) (options : Options) (s : Client)
    (value : JSVal) (h : (apiRequest w endpoint options s).1 = .ok value) :
    ∃ request, buildRequest s.token endpoint options = some request ∧
      w.respond (request :: s.sent.map Sent.request) = .response true (.json value) := by
  cases hb : buildRequest s.token endpoint options with
  | none =>
    rw [apiRequest_of_raise w endpoint options s hb] at h
    simp at h
  | some request =>
    rw [apiRequest_of_request w endpoint options s request hb] at h
    exact ⟨request, rfl, (settle_ok_iff w _ _).mp h⟩

/-- C2: the request `apiRequest` hands to `fetch` is built from the token held at
the call.  Whenever a request is sent while a token is held (a truthy token; for
a string: a non-empty one), its `Authorization` entry is `Bearer ` followed by the
token, whatever the caller passed under that name, and every other entry is the
caller's overlay of the default; a request sent while no token is held has
exactly that overlay as headers, in which each name carries the caller's value
when the caller gave one and the default `Content-Type: application/json`
otherwise.  A request is sent unless a token is held that cannot be converted to
a string, which no string token is; then the call rejects before `fetch`. -/
theorem apiRequest_headers (w : World) (endpoint : String) (options : Options)
    (s : Client) :
    (∀ request, buildRequest s.token endpoint options = some request →
        (apiRequest w endpoint options s).2.sent = ⟨request, s.token⟩ :: s.sent ∧
          request.url = API_BASE ++ endpoint ∧
          (truthy s.token = true →
            ∃ text, toStr s.token = some text ∧
              request.headers =
                setHeader "Authorization" ("Bearer " ++ text)
                  (spread [("Content-Type", "application/json")]
                    (options.headers.getD [])) ∧
              header "Authorization" request.headers = some ("Bearer " ++ text) ∧
              ∀ key, key ≠ "Authorization" →
                header key request.headers =
                  header key
                    (spread [("Content-Type", "application/json")]
                      (options.headers.getD []))) ∧
          (truthy s.token = false →
            request.headers =
              spread [("Content-Type", "application/json")] (options.headers.getD []))) ∧
      (buildRequest s.token endpoint options = none →
        truthy s.token = true ∧ toStr s.token = none ∧
          apiRequest w endpoint options s =
            (.error ⟨"TypeError", w.typeErrorText "Bearer token"⟩, s)) ∧
      ((truthy s.token = false ∨ ∃ text, toStr s.token = some text) →
        ∃ request, buildRequest s.token endpoint options = some request) ∧
      (∀ key,
        header key (spread [("Content-Type", "application/json")] (options.headers.getD [])) =
          (header key (options.headers.getD []).reverse).orElse
            (fun _ => if key = "Content-Type" then some "application/json" else none)) ∧
      (∀ t, truthy (.str t) = true ↔ t ≠ "") ∧ truthy .null = false ∧
      (∀ t, toStr (.str t) = some t) := by
  refine ⟨?_, ?_, ?_, ?_, ?_, rfl, fun _ => rfl⟩
  · intro request hb
    obtain ⟨hh, hu, _, _⟩ := buildRequest_headers _ _ _ _ hb
    refine ⟨by rw [apiRequest_of_request w endpoint options s request hb], hu, ?_, ?_⟩
    · intro ht
      unfold requestHeaders at hh
      simp only [ht, ↓reduceIte] at hh
      cases hs : toStr s.token with
      | none => simp [hs] at hh
      | some text =>
        simp only [hs, Option.some.injEq] at hh
        refine ⟨text, rfl, hh.symm, ?_, ?_⟩
        · rw [← hh, header_setHeader_same]
        · intro key hkey
          rw [← hh, header_setHeader_other _ _ _ _ hkey]
    · intro ht
      unfold requestHeaders at hh
      simp [ht] at hh
      exact hh.symm
  · intro hb
    have hs := buildRequest_isSome s.token endpoint options
    rw [hb] at hs
    simp [sendable] at hs
    refine ⟨hs.1, hs.2, apiRequest_of_raise w endpoint options s hb⟩
  · intro h
    have hs : sendable s.token = true := by
      rcases h with h | ⟨text, h⟩ <;> simp [sendable, h]
    rw [← buildRequest_isSome s.token endpoint options] at hs
    exact Option.isSome_iff_exists.mp hs
  · intro key
    rw [header_spread]
    by_cases hk : key = "Content-Type"
    · subst hk
      simp [header]
    · have : ¬ "Content-Type" = key := fun e => hk e.symm
      simp [header, hk, this]
  · intro t
    simp [truthy]

/-- C2 on a held token: the stored token `abc` goes out as `Bearer abc`, replacing
the `Authorization` entry the caller passed. -/
theorem apiRequest_headers_example :
    buildRequest (.str "abc") "/api/users/me"
        { headers := some [("Authorization", "Basic xyz"), ("Accept", "text/plain")] } =
        some { url := "/api/users/me", method := none, body := none,
               headers := [("Content-Type", "application/json"),
                 ("Authorization", "Bearer abc"), ("Accept", "text/plain")] } ∧
      (apiRequest (scripted (denied "") (denied "") (denied "")) "/api/users/me"
        { headers := some [("Authorization", "Basic xyz"), ("Accept", "text/plain")] }
        (boot (some "abc") [])).2.sent =
        [⟨{ url := "/api/users/me", method := none, body := none,
            headers := [("Content-Type", "application/json"),
              ("Authorization", "Bearer abc"), ("Accept", "text/plain")] }, .str "abc"⟩] :=
  ⟨rfl,
    ((apiRequest_headers (scripted (denied "") (denied "") (denied "")) "/api/users/me"
      { headers := some [("Authorization", "Basic xyz"), ("Accept", "text/plain")] }
      (boot (some "abc") [])).1 _ rfl).1⟩

/-- C3, as stated, fails: a reply with a success status whose body is not JSON
makes `apiRequest` fail, and a non-success reply whose `detail` is a list of
validation errors yields a message that is neither that field nor the generic
text. -/
theorem apiRequest_result_counterexample :
    (apiRequest (scripted emptySuccess emptySuccess emptySuccess) "/api/calculations/7"
        { method := some "DELETE" } (boot (some "abc") [])).1 =
        .error ⟨"SyntaxError", "Unexpected end of JSON input"⟩ ∧
      (apiRequest (scripted (denied "") (denied "") (.response false (.json validationBody)))
        "/api/calculations/" {} (boot (some "abc") [])).1 =
        .error ⟨"Error", "[object Object]"⟩ := by
  constructor <;> rfl

/-- C3, amended: `apiRequest` returns a value exactly when the request is sent,
`fetch` resolves with a success status and the body parses, and the value is the
parsed body.  For every non-success response it fails: with the parser's error
when the body does not parse, with the engine's TypeError when the body is
`null`, and otherwise according to the body's `detail`: absent or falsy, an
`Error` with the message `An error occurred`; truthy and convertible to a string,
an `Error` with that string as message (the value itself when it is a non-empty
string); truthy and not convertible, the engine's TypeError. -/
theorem apiRequest_result (w : World) (endpoint : String) (options : Options)
    (s : Client) :
    (∀ value, (apiRequest w endpoint options s).1 = .ok value ↔
        ∃ request, buildRequest s.token endpoint options = some request ∧
          w.respond (request :: s.sent.map Sent.request) = .response true (.json value)) ∧
      (∀ request, buildRequest s.token endpoint options = some request →
        (apiRequest w endpoint options s).1 =
          settle w (w.respond (request :: s.sent.map Sent.request))) ∧
      (∀ reply value, settle w reply = .ok value ↔ reply = .response true (.json value)) ∧
      (∀ body, ∃ e, settle w (.response false body) = .error e) ∧
      (∀ e, settle w (.response false (.invalid e)) = .error e) ∧
      (∀ body detail message, getProp body "detail" = some detail → truthy detail = true →
        toStr detail = some message →
        settle w (.response false (.json body)) = .error ⟨"Error", message⟩) ∧
      (∀ body t, getProp body "detail" = some (.str t) → t ≠ "" →
        settle w (.response false (.json body)) = .error ⟨"Error", t⟩) ∧
      (∀ body detail, getProp body "detail" = some detail → truthy detail = false →
        settle w (.response false (.json body)) = .error ⟨"Error", "An error occurred"⟩) ∧
      (∀ body detail, getProp body "detail" = some detail → truthy detail = true →
        toStr detail = none →
        settle w (.response false (.json body)) =
          .error ⟨"TypeError", w.typeErrorText "new Error(error.detail)"⟩) ∧
      (∀ body, getProp body "detail" = none →
        settle w (.response false (.json body)) =
          .error ⟨"TypeError", w.typeErrorText "error.detail"⟩) := by
  refine ⟨?_, ?_, settle_ok_iff w, ?_, ?_, ?_, ?_, ?_, ?_, ?_⟩
  · intro value
    constructor
    · exact apiRequest_ok w endpoint options s value
    · rintro ⟨request, hb, hr⟩
      rw [apiRequest_of_request w endpoint options s request hb]
      exact (settle_ok_iff w _ _).mpr hr
  · intro request hb
    rw [apiRequest_of_request w endpoint options s request hb]
  · intro body
    cases body with
    | invalid e => exact ⟨e, by simp [settle]⟩
    | json v =>
      cases hd : getProp v "detail" with
      | none => exact ⟨⟨"TypeError", w.typeErrorText "error.detail"⟩, by simp [settle, hd]⟩
      | some d =>
        cases ht : truthy d
        · exact ⟨⟨"Error", "An error occurred"⟩, by simp [settle, hd, ht]⟩
        · cases hs : toStr d with
          | none =>
            exact ⟨⟨"TypeError", w.typeErrorText "new Error(error.detail)"⟩,
              by simp [settle, hd, ht, hs]⟩
          | some m => exact ⟨⟨"Error", m⟩, by simp [settle, hd, ht, hs]⟩
  · intro e
    simp [settle]
  · intro body detail message hd ht hs
    simp [settle, hd, ht, hs]
  · intro body t hd ht
    simp [settle, hd, truthy, ht, toStr]
  · intro body detail hd ht
    simp [settle, hd, ht]
  · intro body detail hd ht hs
    simp [settle, hd, ht, hs]
  · intro body hd
    simp [settle, hd]

/-- The amended C3 on the reply `401 {"detail": "Incorrect username or password"}`:
the failure carries that text; on `{"detail": {"toString": 1}}` it is a
TypeError. -/
theorem apiRequest_result_example :
    settle (scripted (denied "") (denied "") (denied ""))
        (.response false (.json (detailBody "Incorrect username or password"))) =
        .error ⟨"Error", "Incorrect username or password"⟩ ∧
      settle (scripted (denied "") (denied "") (denied ""))
        (.response false (.json (.obj (.cons "detail" unconvertible .nil)))) =
        .error ⟨"TypeError", exampleText "new Error(error.detail)"⟩ :=
  ⟨(apiRequest_result (scripted (denied "") (denied "") (denied "")) "/api/auth/login" {}
      (boot none [])).2.2.2.2.2.2.1 (detailBody "Incorrect username or password")
      "Incorrect username or password" rfl (by decide),
    (apiRequest_result (scripted (denied "") (denied "") (denied "")) "/api/auth/login" {}
      (boot none [])).2.2.2.2.2.2.2.2.1 (.obj (.cons "detail" unconvertible .nil))
      unconvertible rfl rfl rfl⟩

/-! ## Operation labels -/

/-- C10, as stated, fails: `constructor` and `toString` are none of the six
operations, yet the lookup finds the member inherited from `Object.prototype` and
that member, not the argument, is returned. -/
theorem operation_label_counterexample :
    "constructor" ∉ operations ∧
      getOperationSymbol "constructor" ≠ .text "constructor" ∧
      getOperationName "toString" ≠ .text "toString" := by
  decide

/-- C10, amended: on the six operations the two functions return the symbols and
names of the tables, each table injective on the six; on every other string that
is not the name of a member of `Object.prototype` they return the argument
unchanged; on such a name they return the inherited member. -/
theorem operation_labels :
    List.map getOperationSymbol operations =
        [.text "+", .text "-", .text "×", .text "÷", .text "^", .text "%"] ∧
      List.map getOperationName operations =
        [.text "Addition", .text "Subtraction", .text "Multiplication", .text "Division",
          .text "Power", .text "Modulo"] ∧
      (List.map getOperationSymbol operations).Nodup ∧
      (List.map getOperationName operations).Nodup ∧
      (∀ operation, operation ∉ operations → operation ∉ objectPrototypeKeys →
        getOperationSymbol operation = .text operation ∧
          getOperationName operation = .text operation) ∧
      (∀ operation, operation ∈ objectPrototypeKeys →
        getOperationSymbol operation = .inherited operation ∧
          getOperationName operation = .inherited operation) := by
  refine ⟨by decide, by decide, by decide, by decide, ?_, ?_⟩
  · intro operation h1 h2
    simp only [operations, List.mem_cons, List.mem_singleton, not_or, List.mem_nil_iff,
      or_false] at h1
    obtain ⟨a, b, c, d, e, f⟩ := h1
    have a1 : ¬ "add" = operation := fun h => a h.symm
    have b1 : ¬ "subtract" = operation := fun h => b h.symm
    have c1 : ¬ "multiply" = operation := fun h => c h.symm
    have d1 : ¬ "divide" = operation := fun h => d h.symm
    have e1 : ¬ "power" = operation := fun h => e h.symm
    have f1 : ¬ "modulo" = operation := fun h => f h.symm
    simp [getOperationSymbol, getOperationName, labelOr, symbols, names, ownEntry, a1, b1,
      c1, d1, e1, f1, h2]
  · intro operation h
    simp only [objectPrototypeKeys, List.mem_cons, List.mem_singleton, List.mem_nil_iff,
      or_false] at h
    rcases h with h | h | h | h | h | h | h | h | h | h | h | h <;> subst h <;> decide

/-! ## Profile fetch, login, startup -/

theorem loadUserProfile_of_error (w : World) (s : Client) (e : JSError)
    (h : (apiRequest w "/api/users/me" {} s).1 = .error e) :
    loadUserProfile w s =
      logout (showMessage e.message "error" (apiRequest w "/api/users/me" {} s).2) := by
  unfold loadUserProfile
  rw [apiRequest_pair] at h ⊢
  simp only at h
  simp only [h]

theorem loadUserProfile_of_ok (w : World) (s : Client) (u : JSVal)
    (h : (apiRequest w "/api/users/me" {} s).1 = .ok u)
    (hf : profileFieldsError w u = none) :
    loadUserProfile w s =
      { (apiRequest w "/api/users/me" {} s).2 with currentUser := u } := by
  unfold loadUserProfile
  rw [apiRequest_pair] at h ⊢
  simp only at h
  simp only [h, hf]

theorem profileFieldsError_none (w : World) (u username : JSVal) (a b : String)
    (h1 : getProp u "username" = some username) (h2 : inputValue username = some a)
    (h3 : inputValue (propOr u "email") = some b) : profileFieldsError w u = none := by
  simp [profileFieldsError, h1, h2, h3]

/-- C6, as stated, fails: with the token `abc` held and mirrored, a profile
request that succeeds with the body `null` still ends with no token in memory and
none in storage. -/
theorem loadUserProfile_counterexample :
    (boot (some "abc") ["calculator-page"]).token = .str "abc" ∧
      (apiRequest (scripted (denied "") (.response true (.json .null)) (denied ""))
        "/api/users/me" {} (boot (some "abc") ["calculator-page"])).1 = .ok .null ∧
      (loadUserProfile (scripted (denied "") (.response true (.json .null)) (denied ""))
        (boot (some "abc") ["calculator-page"])).token = .null ∧
      (loadUserProfile (scripted (denied "") (.response true (.json .null)) (denied ""))
        (boot (some "abc") ["calculator-page"])).storage = none := by
  refine ⟨rfl, rfl, rfl, rfl⟩

/-- C6, amended: `loadUserProfile` always completes.  When the profile request
fails, the client ends logged out: no token in memory, no `token` entry in
storage, `currentUser` null, login page active.  When the profile request
succeeds with a body other than `null` whose `username` and `email` the profile
inputs accept (each is absent, `null`, or converts to a string), token, storage,
page and notices are unchanged and `currentUser` is the body. -/
theorem loadUserProfile_outcome (w : World) (s : Client) :
    (∀ e, (apiRequest w "/api/users/me" {} s).1 = .error e →
        (loadUserProfile w s).token = .null ∧ (loadUserProfile w s).storage = none ∧
          (loadUserProfile w s).currentUser = .null ∧
          (loadUserProfile w s).activePages = ["login-page"]) ∧
      (∀ u username a b, (apiRequest w "/api/users/me" {} s).1 = .ok u →
        getProp u "username" = some username → inputValue username = some a →
        inputValue (propOr u "email") = some b →
        (loadUserProfile w s).token = s.token ∧ (loadUserProfile w s).storage = s.storage ∧
          (loadUserProfile w s).currentUser = u ∧
          (loadUserProfile w s).activePages = s.activePages ∧
          (loadUserProfile w s).notices = s.notices) := by
  constructor
  · intro e h
    rw [loadUserProfile_of_error w s e h]
    exact ⟨rfl, rfl, rfl, rfl⟩
  · intro u username a b h h1 h2 h3
    rw [loadUserProfile_of_ok w s u h (profileFieldsError_none w u username a b h1 h2 h3),
      apiRequest_snd]
    exact ⟨rfl, rfl, rfl, rfl, rfl⟩

/-- The amended C6 on both branches: the profile of alice is cached and the token
`abc` kept; a refused fetch clears token and storage. -/
theorem loadUserProfile_outcome_example :
    ((loadUserProfile (scripted (denied "") (.response true (.json aliceBody)) (denied ""))
        (boot (some "abc") ["calculator-page"])).token = .str "abc" ∧
      (loadUserProfile (scripted (denied "") (.response true (.json aliceBody)) (denied ""))
        (boot (some "abc") ["calculator-page"])).currentUser = aliceBody) ∧
      (loadUserProfile (scripted (denied "") (denied "Could not validate credentials")
          (denied ""))
        (boot (some "abc") ["calculator-page"])).token = .null :=
  ⟨⟨((loadUserProfile_outcome
        (scripted (denied "") (.response true (.json aliceBody)) (denied ""))
        (boot (some "abc") ["calculator-page"])).2 aliceBody (.str "alice") "alice"
        "alice@example.org" rfl rfl rfl rfl).1,
      ((loadUserProfile_outcome
        (scripted (denied "") (.response true (.json aliceBody)) (denied ""))
        (boot (some "abc") ["calculator-page"])).2 aliceBody (.str "alice") "alice"
        "alice@example.org" rfl rfl rfl rfl).2.2.1⟩,
    ((loadUserProfile_outcome
      (scripted (denied "") (denied "Could not validate credentials") (denied ""))
      (boot (some "abc") ["calculator-page"])).1
      ⟨"Error", "Could not validate credentials"⟩ rfl).1⟩

/-- C5, failing run: a stored token that the server no longer accepts.  At
startup, and likewise in a login whose profile fetch is refused, the forced
logout is followed by `showPage('calculator-page')`: no token is held and the
calculator page is the active one.  After a profile update the same failure
ends on the login page. -/
theorem profile_failure_ends_on_calculator :
    (startup (scripted (denied "") (denied "Could not validate credentials") (denied ""))
        (some "stale") ["login-page"]).activePages = ["calculator-page"] ∧
      (startup (scripted (denied "") (denied "Could not validate credentials") (denied ""))
        (some "stale") ["login-page"]).token = .null ∧
      (login (scripted (.response true (.json (tokenBody "abc")))
          (denied "Could not validate credentials") (denied ""))
        "alice" "secret" (boot none ["login-page"])).2.activePages = ["calculator-page"] ∧
      (login (scripted (.response true (.json (tokenBody "abc")))
          (denied "Could not validate credentials") (denied ""))
        "alice" "secret" (boot none ["login-page"])).2.token = .null ∧
      (updateProfile (scripted (denied "") (denied "Could not validate credentials")
          (.response true (.json aliceBody)))
        "alice" "alice@example.org" (boot (some "stale") ["profile-page"])).activePages =
        ["login-page"] := by
  refine ⟨rfl, rfl, rfl, rfl, rfl⟩

/-- C4, failing run: a login refused with `401 {"detail": "Incorrect username or
password"}` rejects with that message and issues no notice at all, and so does a
refused registration; the same refusal of a calculation is shown as an error
notice. -/
theorem login_failure_shows_nothing :
    login (scripted (denied "Incorrect username or password") (denied "") (denied ""))
        "alice" "wrong" (boot none ["login-page"]) =
        (.error ⟨"Error", "Incorrect username or password"⟩,
          { boot none ["login-page"] with
            sent := [⟨{ url := "/api/auth/login", method := some "POST",
                        body := some (.credentials "alice" "wrong"),
                        headers := [("Content-Type", "application/json")] },
              .null⟩] }) ∧
      (login (scripted (denied "Incorrect username or password") (denied "") (denied ""))
        "alice" "wrong" (boot none ["login-page"])).2.notices = [] ∧
      (register (scripted (denied "") (denied "") (denied "Username already registered"))
        "alice" "alice@example.org" "secret" (boot none ["register-page"])).2.notices = [] ∧
      (performCalculation
        (scripted (denied "") (denied "") (denied "Division by zero is not allowed"))
        "1" "divide" "0" (boot (some "abc") ["calculator-page"])).notices =
        [⟨"Division by zero is not allowed", "error"⟩] := by
  refine ⟨rfl, rfl, rfl, rfl⟩

/-- C9, as stated, fails: the login request succeeds with the token `abc`, the
profile request succeeds with the body `null`, and `login` ends with no token in
memory and none in storage. -/
theorem login_counterexample :
    (apiRequest (scripted (.response true (.json (tokenBody "abc")))
        (.response true (.json .null)) (denied ""))
        "/api/users/me" {}
        { boot none ["login-page"] with token := .str "abc", storage := some "abc" }).1 =
        .ok .null ∧
      (login (scripted (.response true (.json (tokenBody "abc")))
          (.response true (.json .null)) (denied ""))
        "alice" "secret" (boot none ["login-page"])).1 = .ok () ∧
      (login (scripted (.response true (.json (tokenBody "abc")))
          (.response true (.json .null)) (denied ""))
        "alice" "secret" (boot none ["login-page"])).2.token = .null ∧
      (login (scripted (.response true (.json (tokenBody "abc")))
          (.response true (.json .null)) (denied ""))
        "alice" "secret" (boot none ["login-page"])).2.storage = none := by
  refine ⟨rfl, rfl, rfl, rfl⟩

theorem profileRequest_of_string (t : String) (ht : t ≠ "") :
    buildRequest (.str t) "/api/users/me" {} =
      some { url := "/api/users/me", method := none, body := none,
             headers := [("Content-Type", "application/json"),
               ("Authorization", "Bearer " ++ t)] } := by
  simp [buildRequest, requestHeaders, truthy, ht, toStr, spread, setHeader, API_BASE]

/-- C9, amended: when the login request succeeds with a body whose `access_token`
is a non-empty string `t` and the profile request that follows succeeds with a
body `u` other than `null` whose `username` and `email` the profile inputs accept
(each is absent, `null`, or converts to a string), `login` resolves with the
token in memory and in storage equal to `t`, the profile request sent with
`Authorization: Bearer t`, `currentUser` equal to `u`, the calculator page active
and the success notice on the toast; when the login request fails, `login`
rejects with that failure and token, storage, page and notices are unchanged. -/
theorem login_outcome (w : World) (username password : String) (s : Client) :
    (∀ data t u name a b,
        (apiRequest w "/api/auth/login"
          { method := some "POST", body := some (.credentials username password) } s).1 =
          .ok data →
        getProp data "access_token" = some (.str t) → t ≠ "" →
        (apiRequest w "/api/users/me" {}
          { (apiRequest w "/api/auth/login"
              { method := some "POST", body := some (.credentials username password) }
              s).2 with token := .str t, storage := some t }).1 = .ok u →
        getProp u "username" = some name → inputValue name = some a →
        inputValue (propOr u "email") = some b →
        (login w username password s).1 = .ok () ∧
          (login w username password s).2.token = .str t ∧
          (login w username password s).2.storage = some t ∧
          (login w username password s).2.currentUser = u ∧
          (login w username password s).2.activePages = ["calculator-page"] ∧
          (login w username password s).2.notices =
            ⟨"Login successful!", "success"⟩ :: s.notices ∧
          (login w username password s).2.sent =
            ⟨{ url := "/api/users/me", method := none, body := none,
               headers := [("Content-Type", "application/json"),
                 ("Authorization", "Bearer " ++ t)] }, .str t⟩ ::
              (logged s.token "/api/auth/login"
                { method := some "POST", body := some (.credentials username password) } ++
                s.sent)) ∧
      (∀ e,
        (apiRequest w "/api/auth/login"
          { method := some "POST", body := some (.credentials username password) } s).1 =
          .error e →
        (login w username password s).1 = .error e ∧
          (login w username password s).2.token = s.token ∧
          (login w username password s).2.storage = s.storage ∧
          (login w username password s).2.activePages = s.activePages ∧
          (login w username password s).2.notices = s.notices) := by
  constructor
  · intro data t u name a b hlogin htoken ht hprofile h1 h2 h3
    have hp := loadUserProfile_of_ok w _ u hprofile (profileFieldsError_none w u name a b h1 h2 h3)
    have hl : login w username password s =
        (.ok (), showMessage "Login successful!" "success" (showPage "calculator-page"
          (loadUserProfile w
            { (apiRequest w "/api/auth/login"
                { method := some "POST", body := some (.credentials username password) }
                s).2 with token := .str t, storage := some t }))) := by
      unfold login
      rw [apiRequest_pair] at hlogin ⊢
      simp only at hlogin
      simp only [hlogin, htoken, toStr]
    rw [hl, hp, apiRequest_snd, apiRequest_snd]
    refine ⟨rfl, rfl, rfl, rfl, rfl, rfl, ?_⟩
    simp only [showMessage, showPage, logged, profileRequest_of_string t ht]
    rfl
  · intro e h
    have hl : login w username password s =
        (.error e, (apiRequest w "/api/auth/login"
          { method := some "POST", body := some (.credentials username password) } s).2) := by
      unfold login
      rw [apiRequest_pair] at h ⊢
      simp only at h
      simp only [h]
    rw [hl, apiRequest_snd]
    exact ⟨rfl, rfl, rfl, rfl, rfl⟩

/-- The amended C9 at a concrete exchange: token body `abc`, profile of alice. -/
theorem login_outcome_example :
    (login (scripted (.response true (.json (tokenBody "abc")))
        (.response true (.json aliceBody)) (denied ""))
      "alice" "secret" (boot none ["login-page"])).2.token = .str "abc" ∧
      (login (scripted (.response true (.json (tokenBody "abc")))
        (.response true (.json aliceBody)) (denied ""))
      "alice" "secret" (boot none ["login-page"])).2.currentUser = aliceBody :=
  ⟨((login_outcome (scripted (.response true (.json (tokenBody "abc")))
      (.response true (.json aliceBody)) (denied "")) "alice" "secret"
      (boot none ["login-page"])).1 (tokenBody "abc") "abc" aliceBody (.str "alice") "alice"
      "alice@example.org" rfl rfl (by decide) rfl rfl rfl rfl).2.1,
    ((login_outcome (scripted (.response true (.json (tokenBody "abc")))
      (.response true (.json aliceBody)) (denied "")) "alice" "secret"
      (boot none ["login-page"])).1 (tokenBody "abc") "abc" aliceBody (.str "alice") "alice"
      "alice@example.org" rfl rfl (by decide) rfl rfl rfl rfl).2.2.2.1⟩

/-! ## Frame lemmas: what each function does to the log, the token and the storage -/

@[simp] theorem showMessage_sent (m t : String) (s : Client) :
    (showMessage m t s).sent = s.sent := rfl

@[simp] theorem showMessage_token (m t : String) (s : Client) :
    (showMessage m t s).token = s.token := rfl

@[simp] theorem showMessage_storage (m t : String) (s : Client) :
    (showMessage m t s).storage = s.storage := rfl

@[simp] theorem showPage_sent (p : String) (s : Client) : (showPage p s).sent = s.sent := rfl

@[simp] theorem showPage_token (p : String) (s : Client) : (showPage p s).token = s.token := rfl

@[simp] theorem showPage_storage (p : String) (s : Client) :
    (showPage p s).storage = s.storage := rfl

@[simp] theorem logout_sent (s : Client) : (logout s).sent = s.sent := rfl

@[simp] theorem logout_token (s : Client) : (logout s).token = .null := rfl

@[simp] theorem logout_storage (s : Client) : (logout s).storage = none := rfl

@[simp] theorem dispatch_sent (w : World) (endpoint : String) (options : Options)
    (s : Client) :
    (dispatch w endpoint options s).2.sent = logged s.token endpoint options ++ s.sent := by
  unfold dispatch logged
  cases buildRequest s.token endpoint options <;> rfl

@[simp] theorem dispatch_token (w : World) (endpoint : String) (options : Options)
    (s : Client) : (dispatch w endpoint options s).2.token = s.token := by
  unfold dispatch
  cases buildRequest s.token endpoint options <;> rfl

@[simp] theorem dispatch_storage (w : World) (endpoint : String) (options : Options)
    (s : Client) : (dispatch w endpoint options s).2.storage = s.storage := by
  unfold dispatch
  cases buildRequest s.token endpoint options <;> rfl

@[simp] theorem loadHistoryDone_sent (w : World) (r : Except JSError Reply) (s : Client) :
    (loadHistoryDone w r s).sent = s.sent := by
  unfold loadHistoryDone
  split
  · split <;> rfl
  · rfl

@[simp] theorem loadHistoryDone_token (w : World) (r : Except JSError Reply) (s : Client) :
    (loadHistoryDone w r s).token = s.token := by
  unfold loadHistoryDone
  split
  · split <;> rfl
  · rfl

@[simp] theorem loadHistoryDone_storage (w : World) (r : Except JSError Reply)
    (s : Client) : (loadHistoryDone w r s).storage = s.storage := by
  unfold loadHistoryDone
  split
  · split <;> rfl
  · rfl

@[simp] theorem loadStatisticsDone_sent (w : World) (r : Except JSError Reply)
    (s : Client) : (loadStatisticsDone w r s).sent = s.sent := by
  unfold loadStatisticsDone
  split
  · split <;> rfl
  · rfl

@[simp] theorem loadStatisticsDone_token (w : World) (r : Except JSError Reply)
    (s : Client) : (loadStatisticsDone w r s).token = s.token := by
  unfold loadStatisticsDone
  split
  · split <;> rfl
  · rfl

@[simp] theorem loadStatisticsDone_storage (w : World) (r : Except JSError Reply)
    (s : Client) : (loadStatisticsDone w r s).storage = s.storage := by
  unfold loadStatisticsDone
  split
  · split <;> rfl
  · rfl

@[simp] theorem loadHistory_sent (w : World) (s : Client) :
    (loadHistory w s).sent = logged s.token "/api/calculations/" {} ++ s.sent := by
  simp [loadHistory]

@[simp] theorem loadHistory_token (w : World) (s : Client) :
    (loadHistory w s).token = s.token := by
  simp [loadHistory]

@[simp] theorem loadHistory_storage (w : World) (s : Client) :
    (loadHistory w s).storage = s.storage := by
  simp [loadHistory]

@[simp] theorem loadStatistics_sent (w : World) (s : Client) :
    (loadStatistics w s).sent = logged s.token "/api/users/me/statistics" {} ++ s.sent := by
  simp [loadStatistics]

@[simp] theorem loadStatistics_token (w : World) (s : Client) :
    (loadStatistics w s).token = s.token := by
  simp [loadStatistics]

@[simp] theorem loadStatistics_storage (w : World) (s : Client) :
    (loadStatistics w s).storage = s.storage := by
  simp [loadStatistics]

@[simp] theorem loadUserProfile_sent (w : World) (s : Client) :
    (loadUserProfile w s).sent = logged s.token "/api/users/me" {} ++ s.sent := by
  unfold loadUserProfile
  rw [apiRequest_pair]
  split
  all_goals (rename_i h; simp only [Prod.mk.injEq] at h; obtain ⟨_, rfl⟩ := h)
  · split <;> rfl
  · rfl

theorem loadUserProfile_kept (w : World) (s : Client) :
    KeptOrCleared s (loadUserProfile w s) := by
  unfold loadUserProfile KeptOrCleared
  rw [apiRequest_pair]
  split
  all_goals (rename_i h; simp only [Prod.mk.injEq] at h; obtain ⟨_, rfl⟩ := h)
  · split
    · exact Or.inl ⟨rfl, rfl⟩
    · exact Or.inr ⟨rfl, rfl⟩
  · exact Or.inr ⟨rfl, rfl⟩

theorem register_sent (w : World) (username email password : String) (s : Client) :
    (register w username email password s).2.sent =
      logged s.token "/api/auth/register"
        { method := some "POST", body := some (.registration username email password) } ++
        s.sent := by
  unfold register
  rw [apiRequest_pair]
  split
  all_goals (rename_i h; simp only [Prod.mk.injEq] at h; obtain ⟨_, rfl⟩ := h)
  all_goals rfl

theorem register_kept (w : World) (username email password : String) (s : Client) :
    (register w username email password s).2.token = s.token ∧
      (register w username email password s).2.storage = s.storage := by
  unfold register
  rw [apiRequest_pair]
  split
  all_goals (rename_i h; simp only [Prod.mk.injEq] at h; obtain ⟨_, rfl⟩ := h)
  all_goals exact ⟨rfl, rfl⟩

theorem performCalculation_sent (w : World) (operand1 operation operand2 : String)
    (s : Client) :
    (performCalculation w operand1 operation operand2 s).sent =
      logged s.token "/api/calculations/"
        { method := some "POST",
          body := some (.calculation operand1 operation operand2) } ++ s.sent := by
  unfold performCalculation
  rw [apiRequest_pair]
  split
  all_goals (rename_i h; simp only [Prod.mk.injEq] at h; obtain ⟨_, rfl⟩ := h)
  · split
    · rfl
    · split <;> rfl
  · rfl

theorem performCalculation_kept (w : World) (operand1 operation operand2 : String)
    (s : Client) :
    (performCalculation w operand1 operation operand2 s).token = s.token ∧
      (performCalculation w operand1 operation operand2 s).storage = s.storage := by
  unfold performCalculation
  rw [apiRequest_pair]
  split
  all_goals (rename_i h; simp only [Prod.mk.injEq] at h; obtain ⟨_, rfl⟩ := h)
  · split
    · exact ⟨rfl, rfl⟩
    · split <;> exact ⟨rfl, rfl⟩
  · exact ⟨rfl, rfl⟩

theorem changePassword_sent (w : World) (currentPassword newPassword : String)
    (s : Client) :
    (changePassword w currentPassword newPassword s).sent =
      logged s.token "/api/users/me/change-password"
        { method := some "POST",
          body := some (.passwordChange currentPassword newPassword) } ++ s.sent := by
  unfold changePassword
  rw [apiRequest_pair]
  split
  all_goals (rename_i h; simp only [Prod.mk.injEq] at h; obtain ⟨_, rfl⟩ := h)
  all_goals rfl

theorem changePassword_kept (w : World) (currentPassword newPassword : String)
    (s : Client) :
    (changePassword w currentPassword newPassword s).token = s.token ∧
      (changePassword w currentPassword newPassword s).storage = s.storage := by
  unfold changePassword
  rw [apiRequest_pair]
  split
  all_goals (rename_i h; simp only [Prod.mk.injEq] at h; obtain ⟨_, rfl⟩ := h)
  all_goals exact ⟨rfl, rfl⟩

theorem updateProfile_sent (w : World) (username email : String) (s : Client) :
    (updateProfile w username email s).sent =
      match (apiRequest w "/api/users/me"
          { method := some "PUT", body := some (.profile username email) } s).1 with
      | .ok _ =>
        logged s.token "/api/users/me" {} ++
          (logged s.token "/api/users/me"
            { method := some "PUT", body := some (.profile username email) } ++ s.sent)
      | .error _ =>
        logged s.token "/api/users/me"
          { method := some "PUT", body := some (.profile username email) } ++ s.sent := by
  unfold updateProfile
  rw [apiRequest_pair]
  split
  all_goals (rename_i h; simp only [Prod.mk.injEq] at h; obtain ⟨h1, rfl⟩ := h)
  all_goals simp [h1]

theorem updateProfile_kept (w : World) (username email : String) (s : Client) :
    KeptOrCleared s (updateProfile w username email s) := by
  unfold updateProfile
  rw [apiRequest_pair]
  split
  all_goals (rename_i h; simp only [Prod.mk.injEq] at h; obtain ⟨h1, rfl⟩ := h)
  · exact loadUserProfile_kept w _
  · exact Or.inl ⟨rfl, rfl⟩

theorem deleteCalculation_sent (w : World) (id : String) (confirmed : Bool) (s : Client) :
    (deleteCalculation w id confirmed s).sent =
      if confirmed then
        match (apiRequest w ("/api/calculations/" ++ id) { method := some "DELETE" } s).1 with
        | .ok _ =>
          logged s.token "/api/users/me/statistics" {} ++
            (logged s.token "/api/calculations/" {} ++
              (logged s.token ("/api/calculations/" ++ id) { method := some "DELETE" } ++
                s.sent))
        | .error _ =>
          logged s.token ("/api/calculations/" ++ id) { method := some "DELETE" } ++ s.sent
      else s.sent := by
  cases confirmed
  · simp [deleteCalculation]
  · unfold deleteCalculation
    simp only [Bool.not_true, Bool.false_eq_true, ↓reduceIte]
    rw [apiRequest_pair]
    split
    all_goals (rename_i h; simp only [Prod.mk.injEq] at h; obtain ⟨h1, rfl⟩ := h)
    all_goals simp [h1]

theorem deleteCalculation_kept (w : World) (id : String) (confirmed : Bool) (s : Client) :
    (deleteCalculation w id confirmed s).token = s.token ∧
      (deleteCalculation w id confirmed s).storage = s.storage := by
  cases confirmed
  · simp [deleteCalculation]
  · unfold deleteCalculation
    simp only [Bool.not_true, Bool.false_eq_true, ↓reduceIte]
    rw [apiRequest_pair]
    split
    all_goals (rename_i h; simp only [Prod.mk.injEq] at h; obtain ⟨h1, rfl⟩ := h)
    all_goals simp

theorem navigate_sent (w : World) (target : NavTarget) (statsFirst : Bool) (s : Client) :
    (navigate w target statsFirst s).sent =
      if target = .history then
        logged s.token "/api/users/me/statistics" {} ++
          (logged s.token "/api/calculations/" {} ++ s.sent)
      else s.sent := by
  cases target
  · simp [navigate, NavTarget.pageId]
  · simp only [navigate, NavTarget.pageId, ↓reduceIte]
    split <;> [skip; skip; split] <;> simp
  · simp [navigate, NavTarget.pageId]

theorem navigate_kept (w : World) (target : NavTarget) (statsFirst : Bool) (s : Client) :
    (navigate w target statsFirst s).token = s.token ∧
      (navigate w target statsFirst s).storage = s.storage := by
  cases target
  · simp [navigate, NavTarget.pageId]
  · simp only [navigate, NavTarget.pageId, ↓reduceIte]
    split <;> [skip; skip; split] <;> simp
  · simp [navigate, NavTarget.pageId]

theorem login_sent (w : World) (username password : String) (s : Client) :
    (login w username password s).2.sent =
      match (apiRequest w "/api/auth/login"
          { method := some "POST", body := some (.credentials username password) } s).1 with
      | .ok data =>
        match getProp data "access_token" with
        | some accessToken =>
          match toStr accessToken with
          | some _ =>
            logged accessToken "/api/users/me" {} ++
              (logged s.token "/api/auth/login"
                { method := some "POST", body := some (.credentials username password) } ++
                s.sent)
          | none =>
            logged s.token "/api/auth/login"
              { method := some "POST", body := some (.credentials username password) } ++
              s.sent
        | none =>
          logged s.token "/api/auth/login"
            { method := some "POST", body := some (.credentials username password) } ++
            s.sent
      | .error _ =>
        logged s.token "/api/auth/login"
          { method := some "POST", body := some (.credentials username password) } ++
          s.sent := by
  unfold login
  rw [apiRequest_pair]
  split
  all_goals (rename_i h; simp only [Prod.mk.injEq] at h; obtain ⟨h1, rfl⟩ := h)
  · simp [h1]
  · simp only [h1]
    split
    · rename_i hq
      simp [hq]
    · rename_i hq
      simp only [hq]
      split <;> rename_i hs <;> simp [hs]

/-! ## Requests per user action -/

theorem logged_of_not_sendable (token : JSVal) (endpoint : String) (options : Options)
    (h : sendable token = false) : logged token endpoint options = [] := by
  have hl := logged_length token endpoint options
  rw [h] at hl
  exact List.length_eq_zero.mp hl

theorem apiRequest_of_not_sendable (w : World) (endpoint : String) (options : Options)
    (s : Client) (h : sendable s.token = false) :
    (apiRequest w endpoint options s).1 =
      .error ⟨"TypeError", w.typeErrorText "Bearer token"⟩ := by
  have hb := buildRequest_isSome s.token endpoint options
  rw [h] at hb
  cases hq : buildRequest s.token endpoint options with
  | none => rw [apiRequest_of_raise w endpoint options s hq]
  | some r => simp [hq] at hb

theorem sendable_of_toStr (v : JSVal) (text : String) (h : toStr v = some text) :
    sendable v = true := by
  simp [sendable, h]

/-- C8, as stated, fails: opening the history page sends two requests, a login
that succeeds sends two, a confirmed delete that succeeds sends three. -/
theorem requests_per_action_counterexample :
    (step (scripted (denied "") (denied "") (denied "")) (.nav .history false)
        (boot (some "abc") ["calculator-page"])).sent.length = 2 ∧
      (step (scripted (.response true (.json (tokenBody "abc")))
          (.response true (.json aliceBody)) (denied ""))
        (.submitLogin "alice" "secret") (boot none ["login-page"])).sent.length = 2 ∧
      (step (scripted (denied "") (denied "") (.response true (.json (.obj .nil))))
        (.clickDelete "7" true) (boot (some "abc") ["history-page"])).sent.length = 3 := by
  refine ⟨rfl, rfl, rfl⟩

/-- C8, amended: the number of requests one user action sends.  While no token is
held or the held token converts to a string (every string token does): register,
calculator and password form, one; login form, two (login, then profile fetch)
when the login request succeeds with a body other than `null` whose
`access_token` converts to a string, one otherwise; profile form, two (update,
then profile fetch) when the update succeeds, one otherwise; opening the history
page, two (history and statistics); the other two navigation targets, none;
delete, none when the dialog is dismissed, three (delete, history, statistics)
when the confirmed delete succeeds, one otherwise.  While the held token cannot
be converted to a string, no action sends any request. -/
theorem requests_per_action (w : World) (s : Client) :
    (sendable s.token = true →
      (∀ username password,
        (step w (.submitLogin username password) s).sent.length =
          s.sent.length +
            match (apiRequest w "/api/auth/login"
                { method := some "POST", body := some (.credentials username password) }
                s).1 with
            | .ok data =>
              (match getProp data "access_token" with
                | some accessToken => if (toStr accessToken).isSome then 2 else 1
                | none => 1)
            | .error _ => 1) ∧
      (∀ username email password,
        (step w (.submitRegister username email password) s).sent.length =
          s.sent.length + 1) ∧
      (∀ operand1 operation operand2,
        (step w (.submitCalculator operand1 operation operand2) s).sent.length =
          s.sent.length + 1) ∧
      (∀ currentPassword newPassword,
        (step w (.submitPassword currentPassword newPassword) s).sent.length =
          s.sent.length + 1) ∧
      (∀ username email,
        (step w (.submitProfile username email) s).sent.length =
          s.sent.length +
            match (apiRequest w "/api/users/me"
                { method := some "PUT", body := some (.profile username email) } s).1 with
            | .ok _ => 2
            | .error _ => 1) ∧
      (∀ statsFirst,
        (step w (.nav .history statsFirst) s).sent.length = s.sent.length + 2 ∧
          (step w (.nav .calculator statsFirst) s).sent.length = s.sent.length ∧
          (step w (.nav .profile statsFirst) s).sent.length = s.sent.length) ∧
      (∀ id,
        (step w (.clickDelete id false) s).sent.length = s.sent.length ∧
          (step w (.clickDelete id true) s).sent.length =
            s.sent.length +
              match (apiRequest w ("/api/calculations/" ++ id) { method := some "DELETE" }
                  s).1 with
              | .ok _ => 3
              | .error _ => 1)) ∧
      (sendable s.token = false → ∀ a, (step w a s).sent = s.sent) := by
  constructor
  · intro hs
    refine ⟨?_, ?_, ?_, ?_, ?_, ?_, ?_⟩
    · intro username password
      simp only [step, login_sent]
      split
      · split
        · rename_i accessToken hq
          cases ht : toStr accessToken with
          | none =>
            simp [logged_length, hs]
            omega
          | some text =>
            simp [logged_length, hs, sendable_of_toStr accessToken text ht]
            omega
        · simp [logged_length, hs]
          omega
      · simp [logged_length, hs]
        omega
    · intro username email password
      simp [step, register_sent, logged_length, hs]
      omega
    · intro operand1 operation operand2
      simp [step, performCalculation_sent, logged_length, hs]
      omega
    · intro currentPassword newPassword
      simp [step, changePassword_sent, logged_length, hs]
      omega
    · intro username email
      simp only [step, updateProfile_sent]
      split <;> simp [logged_length, hs] <;> omega
    · intro statsFirst
      simp [step, navigate_sent, logged_length, hs]
      omega
    · intro id
      simp only [step, deleteCalculation_sent]
      refine ⟨by simp, ?_⟩
      simp only [↓reduceIte]
      split <;> simp [logged_length, hs] <;> omega
  · intro hs a
    cases a with
    | submitLogin username password =>
      simp only [step, login_sent, apiRequest_of_not_sendable w _ _ s hs,
        logged_of_not_sendable _ _ _ hs, List.nil_append]
    | submitRegister username email password =>
      simp only [step, register_sent, logged_of_not_sendable _ _ _ hs, List.nil_append]
    | showRegister => rfl
    | showLogin => rfl
    | submitCalculator operand1 operation operand2 =>
      simp only [step, performCalculation_sent, logged_of_not_sendable _ _ _ hs,
        List.nil_append]
    | submitProfile username email =>
      simp only [step, updateProfile_sent, apiRequest_of_not_sendable w _ _ s hs,
        logged_of_not_sendable _ _ _ hs, List.nil_append]
    | submitPassword currentPassword newPassword =>
      simp only [step, changePassword_sent, logged_of_not_sendable _ _ _ hs,
        List.nil_append]
    | nav target statsFirst =>
      simp only [step, navigate_sent, logged_of_not_sendable _ _ _ hs, List.nil_append,
        ite_self]
    | clickLogout => rfl
    | clickDelete id confirmed =>
      simp only [step, deleteCalculation_sent, apiRequest_of_not_sendable w _ _ s hs,
        logged_of_not_sendable _ _ _ hs, List.nil_append, ite_self]

/-- The amended C8 on both cases: with the token `abc`, the history page costs two
requests; with a token that cannot be converted, a calculation costs none. -/
theorem requests_per_action_example :
    (step (scripted (denied "") (denied "") (denied "")) (.nav .history true)
        (boot (some "abc") ["calculator-page"])).sent.length = 0 + 2 ∧
      (step (scripted (denied "") (denied "") (denied "")) (.submitCalculator "1" "add" "2")
        { boot none ["calculator-page"] with token := unconvertible }).sent = [] :=
  ⟨(((requests_per_action (scripted (denied "") (denied "") (denied ""))
      (boot (some "abc") ["calculator-page"])).1 rfl).2.2.2.2.2.1 true).1,
    (requests_per_action (scripted (denied "") (denied "") (denied ""))
      { boot none ["calculator-page"] with token := unconvertible }).2 rfl
      (.submitCalculator "1" "add" "2")⟩

/-! ## Every logged request carries the token held when it was sent -/

theorem carries_logged (token : JSVal) (endpoint : String) (method : Option String)
    (body : Option Payload) :
    ∀ e ∈ logged token endpoint ⟨method, body, none⟩, carriesToken e := by
  intro e he
  unfold logged at he
  cases hb : buildRequest token endpoint ⟨method, body, none⟩ with
  | none => simp [hb] at he
  | some request =>
    simp only [hb, List.mem_singleton] at he
    subst he
    obtain ⟨hh, _, _, _⟩ := buildRequest_headers _ _ _ _ hb
    unfold requestHeaders at hh
    constructor
    · intro ht
      simp only [ht, ↓reduceIte] at hh
      cases hs : toStr token with
      | none => simp [hs] at hh
      | some text =>
        simp only [hs, Option.some.injEq] at hh
        exact ⟨text, rfl, by rw [← hh, header_setHeader_same]⟩
    · intro ht
      simp [ht, spread] at hh
      simp [← hh, header]

theorem carries_base (base : List Sent) : ∀ e ∈ base, e ∈ base ∨ carriesToken e :=
  fun _ he => Or.inl he

theorem carries_append (new l base : List Sent) (h0 : ∀ e ∈ new, carriesToken e)
    (hl : ∀ e ∈ l, e ∈ base ∨ carriesToken e) :
    ∀ e ∈ new ++ l, e ∈ base ∨ carriesToken e := by
  intro e he
  rcases List.mem_append.mp he with he | he
  · exact Or.inr (h0 e he)
  · exact hl e he

theorem grows_trans {s t u : Client} (h1 : Grows s t) (h2 : Grows t u) : Grows s u := by
  intro e he
  rcases h2 e he with h | h
  · exact h1 e h
  · exact Or.inr h

theorem grows_step (w : World) (a : Action) (s : Client) : Grows s (step w a s) := by
  unfold Grows
  cases a with
  | submitLogin username password =>
    simp only [step, login_sent]
    split
    · split
      · split
        · exact carries_append _ _ _ (carries_logged _ _ _ _)
            (carries_append _ _ _ (carries_logged _ _ _ _) (carries_base _))
        · exact carries_append _ _ _ (carries_logged _ _ _ _) (carries_base _)
      · exact carries_append _ _ _ (carries_logged _ _ _ _) (carries_base _)
    · exact carries_append _ _ _ (carries_logged _ _ _ _) (carries_base _)
  | submitRegister username email password =>
    simp only [step, register_sent]
    exact carries_append _ _ _ (carries_logged _ _ _ _) (carries_base _)
  | showRegister => exact carries_base _
  | showLogin => exact carries_base _
  | submitCalculator operand1 operation operand2 =>
    simp only [step, performCalculation_sent]
    exact carries_append _ _ _ (carries_logged _ _ _ _) (carries_base _)
  | submitProfile username email =>
    simp only [step, updateProfile_sent]
    split
    · exact carries_append _ _ _ (carries_logged _ _ _ _)
        (carries_append _ _ _ (carries_logged _ _ _ _) (carries_base _))
    · exact carries_append _ _ _ (carries_logged _ _ _ _) (carries_base _)
  | submitPassword currentPassword newPassword =>
    simp only [step, changePassword_sent]
    exact carries_append _ _ _ (carries_logged _ _ _ _) (carries_base _)
  | nav target statsFirst =>
    simp only [step, navigate_sent]
    split
    · exact carries_append _ _ _ (carries_logged _ _ _ _)
        (carries_append _ _ _ (carries_logged _ _ _ _) (carries_base _))
    · exact carries_base _
  | clickLogout => exact carries_base _
  | clickDelete id confirmed =>
    simp only [step, deleteCalculation_sent]
    split
    · split
      · exact carries_append _ _ _ (carries_logged _ _ _ _)
          (carries_append _ _ _ (carries_logged _ _ _ _)
            (carries_append _ _ _ (carries_logged _ _ _ _) (carries_base _)))
      · exact carries_append _ _ _ (carries_logged _ _ _ _) (carries_base _)
    · exact carries_base _

theorem grows_run (w : World) (actions : List Action) (s : Client) :
    Grows s (run w actions s) := by
  induction actions generalizing s with
  | nil => exact carries_base _
  | cons a rest ih => exact grows_trans (grows_step w a s) (ih (step w a s))

theorem startup_carries (w : World) (stored : Option String) (pages : List String) :
    ∀ e ∈ (startup w stored pages).sent, carriesToken e := by
  intro e he
  simp only [startup, onContentLoaded] at he
  split at he
  · simp only [showPage_sent, loadUserProfile_sent, boot, List.append_nil] at he
    exact carries_logged _ _ _ _ e he
  · simp [boot] at he

/-- C1, as stated, fails.  First run: a stored token the server refuses; after
startup no token is held and the calculator page is active, and the calculation
the user submits there goes to `/api/calculations/` without an `Authorization`
entry.  Second run: a login answered with a success status and the body `{}`;
the profile fetch inside `login` goes to `/api/users/me` without one. -/
theorem authenticated_request_counterexample :
    (startup (scripted (denied "") (denied "Could not validate credentials") (denied ""))
        (some "stale") ["login-page"]).activePages = ["calculator-page"] ∧
      ((run (scripted (denied "") (denied "Could not validate credentials") (denied ""))
          [.submitCalculator "1" "add" "2"]
          (startup (scripted (denied "") (denied "Could not validate credentials")
            (denied "")) (some "stale") ["login-page"])).sent.map
        (fun e => (e.request.url, header "Authorization" e.request.headers))).head? =
        some ("/api/calculations/", none) ∧
      ((run (scripted (.response true (.json (.obj .nil))) (denied "Not authenticated")
          (denied ""))
          [.submitLogin "alice" "secret"]
          (startup (scripted (.response true (.json (.obj .nil)))
            (denied "Not authenticated") (denied "")) none ["login-page"])).sent.map
        (fun e => (e.request.url, header "Authorization" e.request.headers))).head? =
        some ("/api/users/me", none) := by
  refine ⟨rfl, rfl, rfl⟩

/-- C1, amended: in every state reached from startup (with or without a stored
token) through any sequence of user actions and any server replies, every
request the client has sent, to whatever endpoint, carries `Authorization:
Bearer <token>` for the token held at the moment it was sent when that token was
truthy, and carries no `Authorization` entry when no token was held. -/
theorem requests_carry_held_token (w : World) (stored : Option String)
    (pages : List String) (actions : List Action) (e : Sent)
    (he : e ∈ (run w actions (startup w stored pages)).sent) :
    (truthy e.token = true →
        ∃ text, toStr e.token = some text ∧
          header "Authorization" e.request.headers = some ("Bearer " ++ text)) ∧
      (truthy e.token = false → header "Authorization" e.request.headers = none) := by
  rcases grows_run w actions (startup w stored pages) e he with h | h
  · exact startup_carries w stored pages e h
  · exact h

/-- The amended C1 on a run: startup with the stored token `abc`, then a
calculation; the calculation request carries `Bearer abc`. -/
theorem requests_carry_held_token_example :
    (⟨{ url := "/api/calculations/", method := some "POST",
        body := some (.calculation "1" "add" "2"),
        headers := [("Content-Type", "application/json"),
          ("Authorization", "Bearer abc")] }, .str "abc"⟩ : Sent) ∈
        (run (scripted (denied "") (.response true (.json aliceBody))
            (.response true (.json (.obj .nil))))
          [.submitCalculator "1" "add" "2"]
          (startup (scripted (denied "") (.response true (.json aliceBody))
            (.response true (.json (.obj .nil)))) (some "abc") ["login-page"])).sent ∧
      ∃ text, toStr (.str "abc") = some text ∧
        header "Authorization"
          [("Content-Type", "application/json"), ("Authorization", "Bearer abc")] =
          some ("Bearer " ++ text) :=
  ⟨List.Mem.head _,
    (requests_carry_held_token
      (scripted (denied "") (.response true (.json aliceBody))
        (.response true (.json (.obj .nil))))
      (some "abc") ["login-page"] [.submitCalculator "1" "add" "2"]
      ⟨{ url := "/api/calculations/", method := some "POST",
         body := some (.calculation "1" "add" "2"),
         headers := [("Content-Type", "application/json"),
           ("Authorization", "Bearer abc")] }, .str "abc"⟩
      (List.Mem.head _)).1 rfl⟩

/-! ## Token in memory and token in storage -/

theorem synced_of_kept {s t : Client} (h : KeptOrCleared s t) (hs : Synced s) : Synced t := by
  unfold Synced at *
  rcases h with ⟨h1, h2⟩ | ⟨h1, h2⟩
  · rw [h1, h2, hs]
  · rw [h1, h2]
    rfl

theorem synced_login (w : World) (hw : StringTokens w) (username password : String)
    (s : Client) (hs : Synced s) : Synced (login w username password s).2 := by
  unfold login
  cases hr : (apiRequest w "/api/auth/login"
      { method := some "POST", body := some (.credentials username password) } s).1 with
  | error e =>
    rw [apiRequest_pair, hr]
    exact hs
  | ok data =>
    obtain ⟨request, hb, hreply⟩ := apiRequest_ok w _ _ s data hr
    have hurl : request.url = "/api/auth/login" := (buildRequest_headers _ _ _ _ hb).2.1
    rw [apiRequest_pair, hr]
    simp only
    cases hq : getProp data "access_token" with
    | none => exact hs
    | some accessToken =>
      obtain ⟨t, rfl⟩ := hw request _ data accessToken hurl hreply hq
      simp only [toStr]
      exact synced_of_kept (loadUserProfile_kept w _) rfl

theorem synced_step (w : World) (hw : StringTokens w) (a : Action) (s : Client)
    (hs : Synced s) : Synced (step w a s) := by
  cases a with
  | submitLogin username password => exact synced_login w hw username password s hs
  | submitRegister username email password =>
    exact synced_of_kept (Or.inl (register_kept w username email password s)) hs
  | showRegister => exact hs
  | showLogin => exact hs
  | submitCalculator operand1 operation operand2 =>
    exact synced_of_kept (Or.inl (performCalculation_kept w operand1 operation operand2 s)) hs
  | submitProfile username email => exact synced_of_kept (updateProfile_kept w username email s) hs
  | submitPassword currentPassword newPassword =>
    exact synced_of_kept (Or.inl (changePassword_kept w currentPassword newPassword s)) hs
  | nav target statsFirst =>
    exact synced_of_kept (Or.inl (navigate_kept w target statsFirst s)) hs
  | clickLogout => rfl
  | clickDelete id confirmed =>
    exact synced_of_kept (Or.inl (deleteCalculation_kept w id confirmed s)) hs

theorem synced_run (w : World) (hw : StringTokens w) (actions : List Action) (s : Client)
    (hs : Synced s) : Synced (run w actions s) := by
  induction actions generalizing s with
  | nil => exact hs
  | cons a rest ih => exact ih (step w a s) (synced_step w hw a s hs)

theorem synced_startup (w : World) (stored : Option String) (pages : List String) :
    Synced (startup w stored pages) := by
  simp only [startup, onContentLoaded]
  split
  · exact synced_of_kept (loadUserProfile_kept w (boot stored pages)) rfl
  · rfl

theorem stringTokens_scripted (t : String) (profileReply otherReply : Reply) :
    StringTokens (scripted (.response true (.json (tokenBody t))) profileReply otherReply) := by
  intro r earlier data v hurl hresp hq
  simp only [scripted, hurl, ↓reduceIte, Reply.response.injEq, Body.json.injEq, true_and] at hresp
  subst hresp
  simp [tokenBody, getProp, JSFields.get] at hq
  exact ⟨t, hq.symm⟩

/-- C7, as stated, fails: a login answered with a success status and the body
`{}`, followed by a successful profile fetch, leaves `undefined` in memory (no
token held) and the entry `"undefined"` in storage; a reload then starts with
the truthy token `"undefined"`. -/
theorem token_storage_counterexample :
    (login (scripted (.response true (.json (.obj .nil)))
        (.response true (.json aliceBody)) (denied ""))
        "alice" "secret" (boot none ["login-page"])).2.token = .undefined ∧
      (login (scripted (.response true (.json (.obj .nil)))
        (.response true (.json aliceBody)) (denied ""))
        "alice" "secret" (boot none ["login-page"])).2.storage = some "undefined" ∧
      truthy (login (scripted (.response true (.json (.obj .nil)))
        (.response true (.json aliceBody)) (denied ""))
        "alice" "secret" (boot none ["login-page"])).2.token = false ∧
      truthy (boot (login (scripted (.response true (.json (.obj .nil)))
        (.response true (.json aliceBody)) (denied ""))
        "alice" "secret" (boot none ["login-page"])).2.storage ["login-page"]).token = true := by
  refine ⟨rfl, rfl, rfl, rfl⟩

/-- C7, amended: against a server whose every successful login reply, unless its
body is `null`, has a string under `access_token` (a reply without that entry
does not qualify), in every state reached from startup through any sequence of
user actions (logins and logouts included, whatever the replies) the token in
memory is exactly what `localStorage.getItem('token')` returns, `null` when
there is no entry; a token is held exactly when the entry exists and is not the
empty string; and a reload starts from the same token. -/
theorem token_mirrors_storage (w : World) (hw : StringTokens w) (stored : Option String)
    (pages : List String) (actions : List Action) :
    (run w actions (startup w stored pages)).token =
        getItem (run w actions (startup w stored pages)).storage ∧
      (truthy (run w actions (startup w stored pages)).token = true ↔
        ∃ t, (run w actions (startup w stored pages)).storage = some t ∧ t ≠ "") ∧
      ∀ reloaded, (boot (run w actions (startup w stored pages)).storage reloaded).token =
        (run w actions (startup w stored pages)).token := by
  have h : Synced (run w actions (startup w stored pages)) :=
    synced_run w hw actions _ (synced_startup w stored pages)
  unfold Synced at h
  refine ⟨h, ?_, ?_⟩
  · rw [h]
    cases (run w actions (startup w stored pages)).storage with
    | none => simp [getItem, truthy]
    | some t => simp [getItem, truthy]
  · intro reloaded
    rw [h]
    rfl

/-- The amended C7 on a run: login as alice, whose token is `abc`, then logout,
then login again. -/
theorem token_mirrors_storage_example :
    StringTokens (scripted (.response true (.json (tokenBody "abc")))
        (.response true (.json aliceBody)) (denied "")) ∧
      (run (scripted (.response true (.json (tokenBody "abc")))
          (.response true (.json aliceBody)) (denied ""))
        [.submitLogin "alice" "secret", .clickLogout, .submitLogin "alice" "secret"]
        (startup (scripted (.response true (.json (tokenBody "abc")))
          (.response true (.json aliceBody)) (denied "")) none ["login-page"])).token =
        getItem (some "abc") :=
  ⟨stringTokens_scripted "abc" _ _,
    (token_mirrors_storage
      (scripted (.response true (.json (tokenBody "abc")))
        (.response true (.json aliceBody)) (denied ""))
      (stringTokens_scripted "abc" _ _) none ["login-page"]
      [.submitLogin "alice" "secret", .clickLogout, .submitLogin "alice" "secret"]).1⟩

end CalcApp
